import Mathlib

/-
Verification of the simulation core of the soul-knight-clone repository.

The Python source is shallowly embedded:
* geometry that the code performs with pygame integer rects and float
  tuples is idealized over ℚ (field operations only, decidable, so the
  embedded pipeline is executable);
* the trigonometric bounce integrator (src/objects/object.py, class
  Bounce) and the direction normalization (Bullet.calculate_dir, which
  divides by math.hypot) are embedded over ℝ, since they use sin / cos /
  atan2 / sqrt;
* Python mutation becomes explicit state passing; per-frame external
  data (current room, mouse, the three random draws of Bullet.bounce,
  pygame mask-overlap results, wall list) becomes an explicit
  environment record fed to each step;
* a ZeroDivisionError becomes an Option failure.
-/

namespace SK

/-! ## pygame rectangle primitives

`Rect` mirrors a pygame rect `(x, y, w, h)`; pygame stores integers and
the code assigns float positions into them — here coordinates are kept
exactly as the assigned rationals.  `colliderect` and `collidepoint`
follow pygame's tests: overlap is strict, a point on the left/top edge
is inside, on the right/bottom edge is outside. -/

structure Rect where
  x : ℚ
  y : ℚ
  w : ℚ
  h : ℚ
deriving DecidableEq

def Rect.colliderect (a b : Rect) : Bool :=
  decide (a.x < b.x + b.w) && decide (a.y < b.y + b.h) &&
  decide (b.x < a.x + a.w) && decide (b.y < a.y + a.h)

def Rect.collidepoint (r : Rect) (p : ℚ × ℚ) : Bool :=
  decide (r.x ≤ p.1) && decide (p.1 < r.x + r.w) &&
  decide (r.y ≤ p.2) && decide (p.2 < r.y + r.h)

def Rect.midbottom (r : Rect) : ℚ × ℚ := (r.x + r.w / 2, r.y + r.h)

def Rect.bottomleft (r : Rect) : ℚ × ℚ := (r.x, r.y + r.h)

def Rect.bottomright (r : Rect) : ℚ × ℚ := (r.x + r.w, r.y + r.h)

/-! ## Bullet state (src/bullet.py)

`Bullet.__init__` stores `pos = (x, y)` and keeps `rect.x, rect.y`
equal to `pos` (lines 78-80, re-asserted at every move, lines 113-114),
so the embedding carries one position and derives the rect from it.
`speed` and `bullet_size` are per-subclass constants (`ImpBullet`:
5 and 7, `BossBullet` / `MachineGunBullet`: 7 and 7); `speed` is an
instance attribute after the first reflection mutates it.  `alive`
models membership in `BulletManager.bullets` — `Bullet.kill` removes
the bullet from that list (a no-op when already absent). -/

inductive BulletKind where
  | imp
  | boss
  | machineGun
deriving DecidableEq

def BulletKind.speedConst : BulletKind → ℚ
  | .imp => 5
  | .boss => 7
  | .machineGun => 7

def BulletKind.sizeConst : BulletKind → ℚ
  | .imp => 7
  | .boss => 7
  | .machineGun => 7

structure BState where
  kind : BulletKind
  pos : ℚ × ℚ
  dir : ℚ × ℚ
  speed : ℚ
  damage : ℚ
  bounce_back : Bool
  room : ℕ
  alive : Bool
deriving DecidableEq

def BState.rect (b : BState) : Rect :=
  ⟨b.pos.1, b.pos.2, b.kind.sizeConst, b.kind.sizeConst⟩

/-- An enemy as the bullet code sees it: a hitbox and hit points
(`enemy.hp -= self.damage`, src/bullet.py line 127). -/
structure Enemy where
  hitbox : Rect
  hp : ℚ
deriving DecidableEq

/-- The slice of the game state that `Bullet.update` reads and writes:
the bullet itself, the live enemy list, and the player fields touched by
`Bullet.player_collision` (`shield`, `hp`, `hurt`). -/
structure GState where
  bullet : BState
  enemies : List Enemy
  shield : ℕ
  hp : ℚ
  hurt : Bool
deriving DecidableEq

/-- Per-frame external inputs of `Bullet.update`: the active room, the
room-transition flag, the player hitbox, the outcome of
`player.weapon and player.attacking and collide_mask(weapon, self)`
(a pixel-mask test delegated to pygame, collapsed into one Boolean),
the three random draws of `Bullet.bounce`
(`randint(-20,10)/100`, `randint(-10,10)/100`, `randint(10,20)/10`),
and the wall hitboxes of the current map. -/
structure Env where
  currentRoom : ℕ
  switchRoom : Bool
  playerHitbox : Rect
  parry : Bool
  jx : ℚ
  jy : ℚ
  sf : ℚ
  walls : List Rect
deriving DecidableEq

namespace Bullet

/-- Embeds `Bullet.update_position` (src/bullet.py lines 107-114): advance by
`dir * speed` only when the bullet's room is the current room. -/
def update_position (currentRoom : ℕ) (b : BState) : BState :=
  if b.room = currentRoom then
    { b with pos := (b.pos.1 + b.dir.1 * b.speed, b.pos.2 + b.dir.2 * b.speed) }
  else b

/-- The enemy scan of `Bullet.update` (src/bullet.py lines 125-129):
walk `enemy_list` in order, on the first rect-overlap subtract the
bullet's damage from that enemy and stop (`break`).  The Boolean
records whether the `break` branch fired, i.e. whether `self.kill()`
was called. -/
def enemyScan (r : Rect) (damage : ℚ) : List Enemy → List Enemy × Bool
  | [] => ([], false)
  | e :: rest =>
    if r.colliderect e.hitbox then ({ e with hp := e.hp - damage } :: rest, true)
    else
      let (rest', hit) := enemyScan r damage rest
      (e :: rest', hit)

/-- Embeds `Bullet.player_collision` (src/bullet.py lines 152-168), called with
`collision_enemy = game.player`: on rect overlap outside a room
transition, a nonzero shield absorbs the hit (`shield -= 1`), otherwise
`player.hp -= damage` and the hurt flag is set; either way the bullet
is killed. -/
def player_collision (e : Env) (g : GState) : GState :=
  if g.bullet.rect.colliderect e.playerHitbox && !e.switchRoom then
    if g.shield ≠ 0 then
      { g with shield := g.shield - 1, bullet := { g.bullet with alive := false } }
    else
      { g with hp := g.hp - g.bullet.damage, hurt := true,
               bullet := { g.bullet with alive := false } }
  else g

/-- Embeds `Bullet.bounce` (src/bullet.py lines 170-180): when the player's
weapon is present, attacking, mask-overlapping the bullet (all three
collapsed into `e.parry`) and `bounce_back` still holds, invert the
direction with additive jitter, scale the speed by a random factor and
clear `bounce_back`. -/
def bounceStep (e : Env) (b : BState) : BState :=
  if e.parry && b.bounce_back then
    { b with dir := (-b.dir.1 + e.jx, -b.dir.2 + e.jy),
             speed := b.speed * e.sf,
             bounce_back := false }
  else b

/-- The expiry test of `Bullet.update` (src/bullet.py lines 132-133):
kill the bullet once its rect coordinates leave `[0,1300] × [0,1000]`. -/
def boundsKill (b : BState) : BState :=
  if b.pos.2 < 0 ∨ b.pos.2 > 1000 ∨ b.pos.1 < 0 ∨ b.pos.1 > 1300 then
    { b with alive := false }
  else b

/-- Embeds `Bullet.wall_collision` (src/bullet.py lines 144-150): sample the
rect's midbottom / bottomleft / bottomright against every wall hitbox;
any hit kills the bullet. -/
def wall_collision (walls : List Rect) (b : BState) : BState :=
  if walls.any (fun w =>
      [b.rect.midbottom, b.rect.bottomleft, b.rect.bottomright].any
        (fun p => w.collidepoint p)) then
    { b with alive := false }
  else b

/-- Step (a) of `Bullet.update`: `self.update_position()`. -/
def posPhase (e : Env) (g : GState) : GState :=
  { g with bullet := update_position e.currentRoom g.bullet }

/-- Step (b) of `Bullet.update` (lines 124-129): the enemy scan runs
only for an already-reflected bullet; a hit also kills the bullet
(`self.kill()` before the `break`). -/
def enemyPhase (g : GState) : GState :=
  if g.bullet.bounce_back = false then
    { g with enemies := (enemyScan g.bullet.rect g.bullet.damage g.enemies).1,
             bullet := if (enemyScan g.bullet.rect g.bullet.damage g.enemies).2 then
                         { g.bullet with alive := false }
                       else g.bullet }
  else g

/-- Step (d) of `Bullet.update`: `self.bounce()`. -/
def bouncePhase (e : Env) (g : GState) : GState :=
  { g with bullet := bounceStep e g.bullet }

/-- Step (e) of `Bullet.update`: the out-of-bounds kill. -/
def boundsPhase (g : GState) : GState :=
  { g with bullet := boundsKill g.bullet }

/-- Step (f) of `Bullet.update`: `self.wall_collision()`. -/
def wallPhase (e : Env) (g : GState) : GState :=
  { g with bullet := wall_collision e.walls g.bullet }

/-- Embeds `Bullet.update` (src/bullet.py lines 121-134), in source order:
(a) `update_position`; (b) when `bounce_back` is false, the first-hit
enemy scan, whose hit kills the bullet; (c) `player_collision`;
(d) `bounce`; (e) the out-of-bounds kill; (f) `wall_collision`. -/
def update (e : Env) (g : GState) : GState :=
  wallPhase e (boundsPhase (bouncePhase e (player_collision e (enemyPhase (posPhase e g)))))

/-- A bullet's whole lifetime: one `update` per frame, driven by a list
of per-frame environments. -/
def run (envs : List Env) (g : GState) : GState :=
  envs.foldl (fun s e => update e s) g

end Bullet

/-! ## BulletManager.remove_bullets (src/bullet.py lines 361-366)

The Python loop `for bullet in self.bullets: if current_room is not
bullet.room: self.bullets.remove(bullet)` mutates the list it iterates.
Python's list iterator keeps a bare index: it reads position `i`,
advances to `i + 1`, then the body runs (possibly shrinking the list).
Bullets are compared by identity; they are modelled as `(id, room)`
pairs with distinct ids, so `remove` erases the first (unique)
occurrence of the element just read. -/

def removeLoop (currentRoom : ℕ) : ℕ → List (ℕ × ℕ) → List (ℕ × ℕ)
  | i, l =>
    if h : i < l.length then
      let b := l.get ⟨i, h⟩
      if currentRoom ≠ b.2 then removeLoop currentRoom (i + 1) (l.erase b)
      else removeLoop currentRoom (i + 1) l
    else l
termination_by i l => l.length - i
decreasing_by
  · have hb : l.get ⟨i, h⟩ ∈ l := l.get_mem _ h
    have : (l.erase (l.get ⟨i, h⟩)).length = l.length - 1 :=
      List.length_erase_of_mem hb
    omega
  · omega

def BulletManager.remove_bullets (currentRoom : ℕ) (bullets : List (ℕ × ℕ)) :
    List (ℕ × ℕ) :=
  removeLoop currentRoom 0 bullets

/-! ## Bullet.calculate_dir (src/bullet.py lines 85-88)

`__init__` stores `dir = (target_x - x, target_y - y)` and then
`calculate_dir` divides it by `math.hypot(*dir)`.  Python raises
`ZeroDivisionError` when the length is `0.0`; the embedding returns
`none` there instead of a vector. -/

noncomputable def calculate_dir (d : ℝ × ℝ) : Option (ℝ × ℝ) :=
  if Real.sqrt (d.1 ^ 2 + d.2 ^ 2) = 0 then none
  else some (d.1 / Real.sqrt (d.1 ^ 2 + d.2 ^ 2), d.2 / Real.sqrt (d.1 ^ 2 + d.2 ^ 2))

/-- The direction stored by `Bullet.__init__` (src/bullet.py lines
81-82) for a bullet spawned at `(x, y)` aimed at `(tx, ty)`. -/
noncomputable def initialDir (x y tx ty : ℝ) : Option (ℝ × ℝ) :=
  calculate_dir (tx - x, ty - y)

/-! ## WeaponSwing and Weapon.player_update (src/objects/weapon.py)

The swing state machine carries the swing counter, the player's
`attacking` flag (written only by the weapon code during a swing; input
handling, outside this repository, sets it true), the parity of the
horizontal flips applied to `original_image`, the rotation angle, and
`swing_side` (initialized to 1 and never reassigned anywhere in the
source).  Image, rect and pixel-mask regeneration are pygame surface
work carried out from `angle` each frame and carry no further state.
`rotate`'s angle is `(180/π)·atan2(∓dy, dx)` of the mouse offset plus a
side-dependent constant; the mouse-derived `atan2` part is external
input `mouseAngle`. -/

structure WState where
  counter : ℕ
  attacking : Bool
  flipped : Bool
  angle : ℚ
  swing_side : ℤ
deriving DecidableEq

namespace WeaponSwing

def left_swing : ℚ := 10
def right_swing : ℚ := -190

/-- Embeds `WeaponSwing.swing` (src/objects/weapon.py lines 81-91): advance
the angle by `20 * swing_side` and the counter by one. -/
def swing (s : WState) : WState :=
  { s with angle := s.angle + 20 * s.swing_side, counter := s.counter + 1 }

/-- Embeds `WeaponSwing.rotate` (src/objects/weapon.py lines 54-79):
recompute the angle from the mouse direction plus the side bias. -/
def rotate (mouseAngle : ℚ) (s : WState) : WState :=
  { s with angle := mouseAngle + (if s.swing_side = 1 then left_swing else right_swing) }

end WeaponSwing

/-- Embeds `Weapon.player_update` (src/objects/weapon.py lines 197-207): when
the counter has reached 10, flip the base image, end the attack and
reset the counter; then either swing (attacking) or follow the cursor.
(`Katana.player_update`, lines 284-295, repeats this verbatim plus a
screen-shake reset.)  `enemy_collision`, run in the swing branch,
mutates enemies only and is treated separately with the katana. -/
def Weapon.player_update (mouseAngle : ℚ) (s : WState) : WState :=
  let s1 := if s.counter = 10 then
    { s with flipped := !s.flipped, attacking := false, counter := 0 }
  else s
  if s1.attacking && decide (s1.counter ≤ 10) then WeaponSwing.swing s1
  else WeaponSwing.rotate mouseAngle s1

/-! ## Katana.Slash accumulator (src/objects/weapon.py lines 251-282)

`Katana.special_effect(enemy)` walks `damage_enemies`; every record for
that enemy applies `enemy.hp -= weapon.damage * record.damage` and then
bumps `record.damage` by 0.1; afterwards, if no record exists for the
enemy, a fresh `Slash(enemy, weapon)` with `damage = 0.1` is appended.
Enemies are identified by an id (`is` comparison); their hit points
live in a map. -/

structure Slash where
  enemy : ℕ
  damage : ℚ
deriving DecidableEq

structure KState where
  damage_enemies : List Slash
  hp : ℕ → ℚ

namespace Katana

/-- Embeds the `Katana.damage` class constant (src/objects/weapon.py line 248). -/
def katana_damage : ℚ := 1000

/-- Embeds the loop `for e in self.damage_enemies: if e.enemy is enemy: e.update()`
loop: thread the enemy's hit points through the matching records,
updating each record's accumulated multiplier. -/
def specialLoop (wd : ℚ) (en : ℕ) : List Slash → ℚ → List Slash × ℚ
  | [], hp => ([], hp)
  | e :: rest, hp =>
    if e.enemy = en then
      let hp1 := hp - wd * e.damage
      let out := specialLoop wd en rest hp1
      ({ e with damage := e.damage + 1/10 } :: out.1, out.2)
    else
      let out := specialLoop wd en rest hp
      (e :: out.1, out.2)

/-- Embeds `Katana.enemy_in_list` (src/objects/weapon.py lines 272-275). -/
def enemy_in_list (en : ℕ) (l : List Slash) : Bool :=
  l.any (fun e => e.enemy = en)

/-- Embeds `Katana.special_effect` (src/objects/weapon.py lines 277-282),
with `wd` the katana's `damage` attribute. -/
def special_effect (wd : ℚ) (en : ℕ) (s : KState) : KState :=
  let out := specialLoop wd en s.damage_enemies (s.hp en)
  let hp' := fun i => if i = en then out.2 else s.hp i
  if !enemy_in_list en out.1 then
    { damage_enemies := out.1 ++ [⟨en, 1/10⟩], hp := hp' }
  else
    { damage_enemies := out.1, hp := hp' }

/-- One struck frame of `Weapon.enemy_collision`
(src/objects/weapon.py lines 184-195) for an overlapping, living,
off-cooldown enemy: `special_effect` followed by the flat
`enemy.hp -= weapon.damage * player.strength`. -/
def hitFrame (wd strength : ℚ) (en : ℕ) (s : KState) : KState :=
  let s1 := special_effect wd en s
  { s1 with hp := fun i => if i = en then s1.hp en - wd * strength else s1.hp i }

end Katana

/-! ## Bounce integrator (src/objects/object.py lines 441-516)

Polar-velocity ballistic integrator over ℝ.  `__init__` randomizes
`speed ∈ [0.5, 0.6]`, `angle ∈ [-1, 1]`, `elasticity ∈ [0.75, 0.9]`
and fixes `drag = 0.999`, `gravity = (π, 0.002)`. -/

structure Bounce where
  x : ℝ
  y : ℝ
  speed : ℝ
  angle : ℝ
  drag : ℝ
  elasticity : ℝ
  gravityAngle : ℝ
  gravityMag : ℝ
  limit : ℝ
  size : ℝ × ℝ

/-- The randomized initialization ranges of `Bounce.__init__`
(src/objects/object.py lines 441-459). -/
def Bounce.initRanges (s : Bounce) : Prop :=
  1/2 ≤ s.speed ∧ s.speed ≤ 3/5 ∧
  -1 ≤ s.angle ∧ s.angle ≤ 1 ∧
  s.drag = 999/1000 ∧
  3/4 ≤ s.elasticity ∧ s.elasticity ≤ 9/10 ∧
  s.gravityAngle = Real.pi ∧ s.gravityMag = 1/500

/-- Python's `math.atan2`. -/
noncomputable def atan2 (y x : ℝ) : ℝ :=
  if 0 < x then Real.arctan (y / x)
  else if x < 0 ∧ 0 ≤ y then Real.arctan (y / x) + Real.pi
  else if x < 0 ∧ y < 0 then Real.arctan (y / x) - Real.pi
  else if x = 0 ∧ 0 < y then Real.pi / 2
  else if x = 0 ∧ y < 0 then -(Real.pi / 2)
  else 0

/-- Embeds `Bounce.add_vectors` (src/objects/object.py lines 461-479): sum of
two polar vectors under the convention `x = sin·len`, `y = cos·len`
(angle 0 points straight up); `math.hypot` is `√(x² + y²)`. -/
noncomputable def Bounce.add_vectors (angle1 length1 angle2 length2 : ℝ) : ℝ × ℝ :=
  let x := Real.sin angle1 * length1 + Real.sin angle2 * length2
  let y := Real.cos angle1 * length1 + Real.cos angle2 * length2
  (Real.pi / 2 - atan2 y x, Real.sqrt (x ^ 2 + y ^ 2))

/-- The speed returned by `add_vectors` applied to the current velocity
and gravity — the magnitude of the velocity after the gravity pull,
before drag is applied. -/
noncomputable def Bounce.postGravitySpeed (s : Bounce) : ℝ :=
  (Bounce.add_vectors s.angle s.speed s.gravityAngle s.gravityMag).2

/-- Embeds `Bounce.move` (src/objects/object.py lines 481-486): pull the
velocity by gravity, advance the position along the new angle with the
new speed, then apply drag to the speed. -/
noncomputable def Bounce.move (s : Bounce) : Bounce :=
  let p := Bounce.add_vectors s.angle s.speed s.gravityAngle s.gravityMag
  { s with angle := p.1,
           x := s.x + Real.sin p.1 * p.2,
           y := s.y - Real.cos p.1 * p.2,
           speed := p.2 * s.drag }

/-- Embeds `Bounce.bounce` (src/objects/object.py lines 488-508): reflect at
the primary y-limit (elif: the absolute floor `654 - size[0]`), then at
the left wall `198 + 10` (elif: the right wall `1136 - size[0]`); every
reflection multiplies the speed by `elasticity`. -/
noncomputable def Bounce.bounce (s : Bounce) : Bounce :=
  let s1 :=
    if s.limit < s.y then
      { s with y := 2 * s.limit - s.y, angle := Real.pi - s.angle,
               speed := s.speed * s.elasticity }
    else if 654 - s.size.1 < s.y then
      { s with y := 2 * (654 - s.size.1) - s.y, angle := Real.pi - s.angle,
               speed := s.speed * s.elasticity }
    else s
  if s1.x < 198 + 10 then
    { s1 with x := 2 * (198 + 10) - s1.x, angle := -s1.angle,
              speed := s1.speed * s1.elasticity }
  else if 1136 - s1.size.1 < s1.x then
    { s1 with x := 2 * (1136 - s1.size.1) - s1.x, angle := -s1.angle,
              speed := s1.speed * s1.elasticity }
  else s1

/-- Guard of any reflecting branch of `Bounce.bounce`. -/
def Bounce.crossesBoundary (s : Bounce) : Prop :=
  s.limit < s.y ∨ 654 - s.size.1 < s.y ∨ s.x < 198 + 10 ∨ 1136 - s.size.1 < s.x

/-! ## Helper lemmas about the bullet update phases -/

namespace Bullet

@[simp] lemma update_position_dir (cur : ℕ) (b : BState) :
    (update_position cur b).dir = b.dir := by
  unfold update_position; split <;> rfl

@[simp] lemma update_position_speed (cur : ℕ) (b : BState) :
    (update_position cur b).speed = b.speed := by
  unfold update_position; split <;> rfl

@[simp] lemma update_position_bb (cur : ℕ) (b : BState) :
    (update_position cur b).bounce_back = b.bounce_back := by
  unfold update_position; split <;> rfl

@[simp] lemma update_position_alive (cur : ℕ) (b : BState) :
    (update_position cur b).alive = b.alive := by
  unfold update_position; split <;> rfl

@[simp] lemma enemyPhase_bullet_pos (g : GState) :
    (enemyPhase g).bullet.pos = g.bullet.pos := by
  unfold enemyPhase
  split
  · split <;> rfl
  · rfl

@[simp] lemma enemyPhase_bullet_dir (g : GState) :
    (enemyPhase g).bullet.dir = g.bullet.dir := by
  unfold enemyPhase
  split
  · split <;> rfl
  · rfl

@[simp] lemma enemyPhase_bullet_speed (g : GState) :
    (enemyPhase g).bullet.speed = g.bullet.speed := by
  unfold enemyPhase
  split
  · split <;> rfl
  · rfl

@[simp] lemma enemyPhase_bullet_bb (g : GState) :
    (enemyPhase g).bullet.bounce_back = g.bullet.bounce_back := by
  unfold enemyPhase
  split
  · split <;> rfl
  · rfl

lemma enemyPhase_bullet_alive (g : GState) (h : g.bullet.alive = false) :
    (enemyPhase g).bullet.alive = false := by
  unfold enemyPhase
  split
  · split
    · rfl
    · exact h
  · exact h

@[simp] lemma player_collision_bullet_pos (e : Env) (g : GState) :
    (player_collision e g).bullet.pos = g.bullet.pos := by
  unfold player_collision
  split
  · split <;> rfl
  · rfl

@[simp] lemma player_collision_bullet_dir (e : Env) (g : GState) :
    (player_collision e g).bullet.dir = g.bullet.dir := by
  unfold player_collision
  split
  · split <;> rfl
  · rfl

@[simp] lemma player_collision_bullet_speed (e : Env) (g : GState) :
    (player_collision e g).bullet.speed = g.bullet.speed := by
  unfold player_collision
  split
  · split <;> rfl
  · rfl

@[simp] lemma player_collision_bullet_bb (e : Env) (g : GState) :
    (player_collision e g).bullet.bounce_back = g.bullet.bounce_back := by
  unfold player_collision
  split
  · split <;> rfl
  · rfl

lemma player_collision_bullet_alive (e : Env) (g : GState) (h : g.bullet.alive = false) :
    (player_collision e g).bullet.alive = false := by
  unfold player_collision
  split
  · split <;> rfl
  · exact h

@[simp] lemma bounceStep_pos (e : Env) (b : BState) :
    (bounceStep e b).pos = b.pos := by
  unfold bounceStep; split <;> rfl

@[simp] lemma bounceStep_alive (e : Env) (b : BState) :
    (bounceStep e b).alive = b.alive := by
  unfold bounceStep; split <;> rfl

lemma bounceStep_bb (e : Env) (b : BState) (h : b.bounce_back = false) :
    (bounceStep e b).bounce_back = false := by
  simp [bounceStep, h]

@[simp] lemma boundsKill_pos (b : BState) : (boundsKill b).pos = b.pos := by
  unfold boundsKill; split <;> rfl

@[simp] lemma boundsKill_dir (b : BState) : (boundsKill b).dir = b.dir := by
  unfold boundsKill; split <;> rfl

@[simp] lemma boundsKill_speed (b : BState) : (boundsKill b).speed = b.speed := by
  unfold boundsKill; split <;> rfl

@[simp] lemma boundsKill_bb (b : BState) : (boundsKill b).bounce_back = b.bounce_back := by
  unfold boundsKill; split <;> rfl

lemma boundsKill_alive (b : BState) (h : b.alive = false) :
    (boundsKill b).alive = false := by
  unfold boundsKill; split <;> simp [h]

lemma boundsKill_alive_of_out (b : BState)
    (h : b.pos.2 < 0 ∨ b.pos.2 > 1000 ∨ b.pos.1 < 0 ∨ b.pos.1 > 1300) :
    (boundsKill b).alive = false := by
  simp [boundsKill, h]

@[simp] lemma wall_collision_pos (walls : List Rect) (b : BState) :
    (wall_collision walls b).pos = b.pos := by
  unfold wall_collision; split <;> rfl

@[simp] lemma wall_collision_dir (walls : List Rect) (b : BState) :
    (wall_collision walls b).dir = b.dir := by
  unfold wall_collision; split <;> rfl

@[simp] lemma wall_collision_speed (walls : List Rect) (b : BState) :
    (wall_collision walls b).speed = b.speed := by
  unfold wall_collision; split <;> rfl

@[simp] lemma wall_collision_bb (walls : List Rect) (b : BState) :
    (wall_collision walls b).bounce_back = b.bounce_back := by
  unfold wall_collision; split <;> rfl

lemma wall_collision_alive (walls : List Rect) (b : BState) (h : b.alive = false) :
    (wall_collision walls b).alive = false := by
  unfold wall_collision; split <;> simp [h]

@[simp] lemma posPhase_bullet_dir (e : Env) (g : GState) :
    (posPhase e g).bullet.dir = g.bullet.dir := by
  simp [posPhase]

@[simp] lemma posPhase_bullet_speed (e : Env) (g : GState) :
    (posPhase e g).bullet.speed = g.bullet.speed := by
  simp [posPhase]

@[simp] lemma posPhase_bullet_bb (e : Env) (g : GState) :
    (posPhase e g).bullet.bounce_back = g.bullet.bounce_back := by
  simp [posPhase]

@[simp] lemma posPhase_bullet_alive (e : Env) (g : GState) :
    (posPhase e g).bullet.alive = g.bullet.alive := by
  simp [posPhase]

/-- One full `Bullet.update` keeps `bounce_back` false. -/
lemma update_bb_false (e : Env) (g : GState) (h : g.bullet.bounce_back = false) :
    (update e g).bullet.bounce_back = false := by
  unfold update wallPhase boundsPhase bouncePhase
  simp only [wall_collision_bb, boundsKill_bb]
  exact bounceStep_bb _ _ (by simp [h])

/-- Any run of frames keeps `bounce_back` false. -/
lemma run_bb_false (envs : List Env) (g : GState) (h : g.bullet.bounce_back = false) :
    (run envs g).bullet.bounce_back = false := by
  induction envs generalizing g with
  | nil => exact h
  | cons e rest ih => exact ih _ (update_bb_false e g h)

/-- A frame that ends with `bounce_back` still true started with it true
and did not touch speed or direction: the reflection branch is the only
writer of `speed` and `dir` inside `Bullet.update`. -/
lemma update_bb_true (e : Env) (g : GState)
    (h : (update e g).bullet.bounce_back = true) :
    g.bullet.bounce_back = true ∧
    (update e g).bullet.speed = g.bullet.speed ∧
    (update e g).bullet.dir = g.bullet.dir := by
  unfold update wallPhase boundsPhase bouncePhase at h ⊢
  simp only [wall_collision_bb, boundsKill_bb] at h
  simp only [wall_collision_speed, boundsKill_speed, wall_collision_dir, boundsKill_dir]
  unfold bounceStep at h ⊢
  by_cases hc : (e.parry &&
      (player_collision e (enemyPhase (posPhase e g))).bullet.bounce_back) = true
  · rw [if_pos hc] at h
    simp at h
  · rw [if_neg hc] at h ⊢
    refine ⟨by simpa using h, by simp, by simp⟩

end Bullet

/-! ## Claim theorems -/

/-- Claim C10: a single `BulletManager.remove_bullets` call misses
bullets because it removes from the list it iterates: with current room
3 and two consecutive bullets `(0, 5)` and `(1, 5)` both living in room
5 ≠ 3, the call removes the first but leaves the second in the
collection. -/
theorem remove_bullets_skips_second :
    BulletManager.remove_bullets 3 [(0, 5), (1, 5)] = [(1, 5)] ∧ (1, 5).2 ≠ 3 := by
  constructor
  · unfold BulletManager.remove_bullets
    rw [removeLoop]
    norm_num [List.erase]
    rw [removeLoop]
    norm_num
  · decide

/-- Claim C6: once a bullet has been reflected (`bounce_back = false`),
no sequence of `Bullet.update` frames ever makes `bounce_back` true
again, so the reflection branch of `Bullet.bounce` (whose guard
requires `bounce_back`) can never fire a second time. -/
theorem bounce_back_permanently_false (envs : List Env) (g : GState)
    (h : g.bullet.bounce_back = false) :
    (Bullet.run envs g).bullet.bounce_back = false :=
  Bullet.run_bb_false envs g h

/-- Witness for C6 at a concrete reflected bullet over two frames. -/
theorem bounce_back_permanently_false_witness :
    (Bullet.run
      [⟨0, false, ⟨900, 900, 10, 10⟩, true, 1/10, 0, 2, []⟩,
       ⟨0, false, ⟨900, 900, 10, 10⟩, true, 1/10, 0, 2, []⟩]
      ⟨⟨.imp, (100, 100), (1, 0), 5, 10, false, 0, true⟩, [], 0, 50, false⟩).bullet.bounce_back
      = false :=
  bounce_back_permanently_false _ _ rfl

/-- Claim C8: any bullet whose position is outside `[0,1300] × [0,1000]`
after its `Bullet.update` frame (the only moment positions change) ends
that same frame dead — removed from the live collection by
`self.kill()`. -/
theorem bullet_out_of_bounds_killed_same_tick (e : Env) (g : GState)
    (h : (Bullet.update e g).bullet.pos.2 < 0 ∨ (Bullet.update e g).bullet.pos.2 > 1000 ∨
         (Bullet.update e g).bullet.pos.1 < 0 ∨ (Bullet.update e g).bullet.pos.1 > 1300) :
    (Bullet.update e g).bullet.alive = false := by
  have hpos : (Bullet.update e g).bullet.pos
      = (Bullet.bounceStep e (Bullet.player_collision e
          (Bullet.enemyPhase (Bullet.posPhase e g))).bullet).pos := by
    unfold Bullet.update Bullet.wallPhase Bullet.boundsPhase Bullet.bouncePhase
    simp
  unfold Bullet.update Bullet.wallPhase Bullet.boundsPhase Bullet.bouncePhase
  apply Bullet.wall_collision_alive
  apply Bullet.boundsKill_alive_of_out
  rw [hpos] at h
  exact h

/-- Witness for C8: a live imp bullet at `(1299, 500)` moving right in
the active room exits at `(1304, 500)` and is dead after the frame. -/
theorem bullet_out_of_bounds_killed_same_tick_witness :
    (Bullet.update ⟨0, false, ⟨900, 900, 10, 10⟩, false, 0, 0, 1, []⟩
      ⟨⟨.imp, (1299, 500), (1, 0), 5, 10, true, 0, true⟩, [], 0, 50, false⟩).bullet.alive
      = false := by
  apply bullet_out_of_bounds_killed_same_tick
  right; right; right
  norm_num [Bullet.update, Bullet.wallPhase, Bullet.boundsPhase, Bullet.bouncePhase,
    Bullet.posPhase, Bullet.update_position, Bullet.player_collision, Bullet.enemyPhase,
    Bullet.bounceStep, Bullet.boundsKill, Bullet.wall_collision, BState.rect,
    Rect.colliderect]

/-- Claim C4: `Bullet.player_collision` on an overlap outside a room
transition: a positive shield is decremented by exactly one with hp and
hurt flag untouched and the bullet destroyed; a zero shield lets hp
drop by exactly the bullet's damage, sets the hurt flag, and destroys
the bullet. -/
theorem bullet_player_collision_shield_hp (e : Env) (g : GState)
    (hov : g.bullet.rect.colliderect e.playerHitbox = true)
    (hsw : e.switchRoom = false) :
    (g.shield ≠ 0 →
      (Bullet.player_collision e g).shield = g.shield - 1 ∧
      (Bullet.player_collision e g).hp = g.hp ∧
      (Bullet.player_collision e g).hurt = g.hurt ∧
      (Bullet.player_collision e g).bullet.alive = false) ∧
    (g.shield = 0 →
      (Bullet.player_collision e g).hp = g.hp - g.bullet.damage ∧
      (Bullet.player_collision e g).hurt = true ∧
      (Bullet.player_collision e g).shield = 0 ∧
      (Bullet.player_collision e g).bullet.alive = false) := by
  constructor
  · intro hs
    simp [Bullet.player_collision, hov, hsw, hs]
  · intro hs
    simp [Bullet.player_collision, hov, hsw, hs]

/-- Witness for C4: shield 2 absorbs a damage-10 bullet (shield 2 → 1,
hp stays 50); shield 0 takes it (hp 50 → 40, hurt set); the bullet dies
both times. -/
theorem bullet_player_collision_shield_hp_witness :
    ((Bullet.player_collision ⟨0, false, ⟨0, 0, 10, 10⟩, false, 0, 0, 1, []⟩
        ⟨⟨.imp, (0, 0), (1, 0), 5, 10, true, 0, true⟩, [], 2, 50, false⟩).shield = 1 ∧
     (Bullet.player_collision ⟨0, false, ⟨0, 0, 10, 10⟩, false, 0, 0, 1, []⟩
        ⟨⟨.imp, (0, 0), (1, 0), 5, 10, true, 0, true⟩, [], 2, 50, false⟩).hp = 50 ∧
     (Bullet.player_collision ⟨0, false, ⟨0, 0, 10, 10⟩, false, 0, 0, 1, []⟩
        ⟨⟨.imp, (0, 0), (1, 0), 5, 10, true, 0, true⟩, [], 2, 50, false⟩).bullet.alive = false) ∧
    ((Bullet.player_collision ⟨0, false, ⟨0, 0, 10, 10⟩, false, 0, 0, 1, []⟩
        ⟨⟨.imp, (0, 0), (1, 0), 5, 10, true, 0, true⟩, [], 0, 50, false⟩).hp = 40 ∧
     (Bullet.player_collision ⟨0, false, ⟨0, 0, 10, 10⟩, false, 0, 0, 1, []⟩
        ⟨⟨.imp, (0, 0), (1, 0), 5, 10, true, 0, true⟩, [], 0, 50, false⟩).hurt = true ∧
     (Bullet.player_collision ⟨0, false, ⟨0, 0, 10, 10⟩, false, 0, 0, 1, []⟩
        ⟨⟨.imp, (0, 0), (1, 0), 5, 10, true, 0, true⟩, [], 0, 50, false⟩).bullet.alive = false) := by
  have h1 := bullet_player_collision_shield_hp
    ⟨0, false, ⟨0, 0, 10, 10⟩, false, 0, 0, 1, []⟩
    ⟨⟨.imp, (0, 0), (1, 0), 5, 10, true, 0, true⟩, [], 2, 50, false⟩
    (by norm_num [BState.rect, Rect.colliderect, BulletKind.sizeConst]) rfl
  have h2 := bullet_player_collision_shield_hp
    ⟨0, false, ⟨0, 0, 10, 10⟩, false, 0, 0, 1, []⟩
    ⟨⟨.imp, (0, 0), (1, 0), 5, 10, true, 0, true⟩, [], 0, 50, false⟩
    (by norm_num [BState.rect, Rect.colliderect, BulletKind.sizeConst]) rfl
  obtain ⟨ha, -⟩ := h1
  obtain ⟨-, hb⟩ := h2
  have ha' := ha (by decide)
  have hb' := hb rfl
  refine ⟨⟨ha'.1, ?_, ha'.2.2.2⟩, ⟨?_, hb'.2.1, hb'.2.2.2⟩⟩
  · exact ha'.2.1
  · have := hb'.1
    norm_num at this ⊢
    exact this

/-- During the swing phase, each `Weapon.player_update` frame with
`attacking` held and counter below 10 just advances angle and counter. -/
lemma player_update_swing_phase (m a0 : ℚ) :
    ∀ k, k ≤ 10 →
      (Weapon.player_update m)^[k] ⟨0, true, false, a0, 1⟩
        = ⟨k, true, false, a0 + 20 * k, 1⟩ := by
  intro k
  induction k with
  | zero => intro _; norm_num
  | succ n ih =>
    intro hn
    have hn' : n ≤ 10 := by omega
    have hne : n ≠ 10 := by omega
    rw [Function.iterate_succ_apply', ih hn']
    simp [Weapon.player_update, WeaponSwing.swing, hne, hn']
    ring

/-- Counterexample to claim C2: after exactly 10 consecutive attacking
frames the counter is 10, but in that same tick nothing is reset: the
state still has `attacking = true`, `counter = 10` and an unflipped
base image (the flip/reset only happens on the next call). -/
theorem weapon_swing_tenth_tick_cex :
    ((Weapon.player_update 0)^[10] ⟨0, true, false, 0, 1⟩).attacking = true ∧
    ((Weapon.player_update 0)^[10] ⟨0, true, false, 0, 1⟩).counter = 10 ∧
    ((Weapon.player_update 0)^[10] ⟨0, true, false, 0, 1⟩).flipped = false := by
  rw [player_update_swing_phase 0 0 10 (by omega)]
  exact ⟨rfl, rfl, rfl⟩

/-- Claim C2 as amended: with `attacking` held true from counter 0, the
10th `Weapon.player_update` frame leaves the swing counter at exactly
10 with the attack still running; the flip of the base image, the reset
of `attacking` and of the counter all happen one tick later, on the
11th call. -/
theorem weapon_swing_counter_reset_next_tick (m a0 : ℚ) :
    (Weapon.player_update m)^[10] ⟨0, true, false, a0, 1⟩
      = ⟨10, true, false, a0 + 200, 1⟩ ∧
    (Weapon.player_update m)^[11] ⟨0, true, false, a0, 1⟩
      = ⟨0, false, true, m + 10, 1⟩ := by
  have h10 := player_update_swing_phase m a0 10 (by omega)
  constructor
  · rw [h10]; norm_num
  · rw [Function.iterate_succ_apply', h10]
    simp [Weapon.player_update, WeaponSwing.rotate, WeaponSwing.left_swing]

/-- Counterexample to claim C3: take the katana (damage 1000), player
strength 1, a fresh swing against enemy 0 with 5000 hp, struck on two
consecutive overlapping frames.  The first hit only applies the flat
damage (hp 5000 → 4000: the `Slash` record is created at multiplier 0.1
but not applied), the second applies multiplier 0.1 plus flat damage
(hp 4000 → 2900).  The claimed second-hit multiplier 0.2 would give a
second-hit loss of 1000·1 + 1000·0.2 = 1200, but the actual loss is
1100. -/
theorem katana_second_hit_multiplier_cex :
    (Katana.hitFrame 1000 1 0 ⟨[], fun _ => 5000⟩).hp 0 = 4000 ∧
    (Katana.hitFrame 1000 1 0 (Katana.hitFrame 1000 1 0 ⟨[], fun _ => 5000⟩)).hp 0 = 2900 ∧
    (Katana.hitFrame 1000 1 0 ⟨[], fun _ => 5000⟩).hp 0 -
        (Katana.hitFrame 1000 1 0 (Katana.hitFrame 1000 1 0 ⟨[], fun _ => 5000⟩)).hp 0
      ≠ 1000 * 1 + 1000 * (2 / 10) := by
  norm_num [Katana.hitFrame, Katana.special_effect, Katana.specialLoop,
    Katana.enemy_in_list]

/-- Claim C3 as amended: striking the same enemy on two overlapping
frames of one swing keeps exactly one accumulator record for that
(weapon, enemy) pair, whose multiplier escalates 0.1 → 0.2; the first
hit applies no slash multiplier (flat damage only, the record is only
created), the second applies multiplier 0.1, so the second hit's total
damage strictly exceeds the first hit's. -/
theorem katana_slash_escalation (wd st : ℚ) (en : ℕ) (h0 : ℕ → ℚ) (hwd : 0 < wd) :
    (Katana.hitFrame wd st en ⟨[], h0⟩).damage_enemies = [⟨en, 1/10⟩] ∧
    (Katana.hitFrame wd st en (Katana.hitFrame wd st en ⟨[], h0⟩)).damage_enemies
      = [⟨en, 2/10⟩] ∧
    (Katana.hitFrame wd st en ⟨[], h0⟩).hp en = h0 en - wd * st ∧
    (Katana.hitFrame wd st en (Katana.hitFrame wd st en ⟨[], h0⟩)).hp en
      = (Katana.hitFrame wd st en ⟨[], h0⟩).hp en - wd * (1/10) - wd * st ∧
    h0 en - (Katana.hitFrame wd st en ⟨[], h0⟩).hp en
      < (Katana.hitFrame wd st en ⟨[], h0⟩).hp en
          - (Katana.hitFrame wd st en (Katana.hitFrame wd st en ⟨[], h0⟩)).hp en := by
  have h1 : Katana.hitFrame wd st en ⟨[], h0⟩
      = ⟨[⟨en, 1/10⟩], fun i => if i = en then h0 en - wd * st else h0 i⟩ := by
    simp [Katana.hitFrame, Katana.special_effect, Katana.specialLoop,
      Katana.enemy_in_list]
    funext i
    by_cases hi : i = en <;> simp [hi]
  rw [h1]
  have h2 : Katana.hitFrame wd st en
        ⟨[⟨en, 1/10⟩], fun i => if i = en then h0 en - wd * st else h0 i⟩
      = ⟨[⟨en, 2/10⟩],
         fun i => if i = en then h0 en - wd * st - wd * (1/10) - wd * st else h0 i⟩ := by
    simp [Katana.hitFrame, Katana.special_effect, Katana.specialLoop,
      Katana.enemy_in_list]
    refine ⟨by norm_num, ?_⟩
    funext i
    by_cases hi : i = en <;> simp [hi]
  rw [h2]
  refine ⟨rfl, rfl, by simp, by simp, ?_⟩
  simp
  linarith

/-- Witness for C3's amended theorem at the katana's own constants
(damage 1000, strength 1, enemy 0 starting at 5000 hp). -/
theorem katana_slash_escalation_witness :
    (Katana.hitFrame 1000 1 0 ⟨[], fun _ => 5000⟩).damage_enemies = [⟨0, 1/10⟩] ∧
    (Katana.hitFrame 1000 1 0 (Katana.hitFrame 1000 1 0 ⟨[], fun _ => 5000⟩)).damage_enemies
      = [⟨0, 2/10⟩] ∧
    (5000 : ℚ) - (Katana.hitFrame 1000 1 0 ⟨[], fun _ => 5000⟩).hp 0
      < (Katana.hitFrame 1000 1 0 ⟨[], fun _ => 5000⟩).hp 0
          - (Katana.hitFrame 1000 1 0 (Katana.hitFrame 1000 1 0 ⟨[], fun _ => 5000⟩)).hp 0 := by
  have h := katana_slash_escalation 1000 1 0 (fun _ => 5000) (by norm_num)
  exact ⟨h.1, h.2.1, h.2.2.2.2⟩

/-- Claim C9: for an already-reflected bullet the per-frame enemy scan
hits exactly the first enemy, in list iteration order, whose hitbox
overlaps the bullet's rect: that enemy loses exactly the bullet's
damage, every other enemy (including later overlapping ones) is
untouched, and the scan reports a hit — which, inside `Bullet.update`
with `bounce_back = false`, kills the bullet.  No distance ordering is
involved. -/
theorem enemy_scan_first_hit_only (r : Rect) (dmg : ℚ) (es : List Enemy)
    (j : ℕ) (en : Enemy)
    (hj : es.get? j = some en)
    (hov : r.colliderect en.hitbox = true)
    (hfst : ∀ k, k < j → ∀ en', es.get? k = some en' → r.colliderect en'.hitbox = false) :
    (Bullet.enemyScan r dmg es).2 = true ∧
    (Bullet.enemyScan r dmg es).1.length = es.length ∧
    (Bullet.enemyScan r dmg es).1.get? j = some { en with hp := en.hp - dmg } ∧
    (∀ k, k ≠ j → (Bullet.enemyScan r dmg es).1.get? k = es.get? k) ∧
    (∀ (e : Env) (g : GState), g.bullet.bounce_back = false →
      (Bullet.enemyScan (Bullet.posPhase e g).bullet.rect
          (Bullet.posPhase e g).bullet.damage (Bullet.posPhase e g).enemies).2 = true →
      (Bullet.update e g).bullet.alive = false) := by
  have hkill : ∀ (e : Env) (g : GState), g.bullet.bounce_back = false →
      (Bullet.enemyScan (Bullet.posPhase e g).bullet.rect
          (Bullet.posPhase e g).bullet.damage (Bullet.posPhase e g).enemies).2 = true →
      (Bullet.update e g).bullet.alive = false := by
    intro e g hbb hhit
    have h1 : (Bullet.enemyPhase (Bullet.posPhase e g)).bullet.alive = false := by
      unfold Bullet.enemyPhase
      rw [if_pos (by simp [hbb] : (Bullet.posPhase e g).bullet.bounce_back = false)]
      show (if (Bullet.enemyScan (Bullet.posPhase e g).bullet.rect
          (Bullet.posPhase e g).bullet.damage (Bullet.posPhase e g).enemies).2 = true
          then _ else _ : BState).alive = false
      rw [if_pos hhit]
    unfold Bullet.update Bullet.wallPhase Bullet.boundsPhase Bullet.bouncePhase
    apply Bullet.wall_collision_alive
    apply Bullet.boundsKill_alive
    rw [Bullet.bounceStep_alive]
    exact Bullet.player_collision_bullet_alive _ _ h1
  have main : (Bullet.enemyScan r dmg es).2 = true ∧
      (Bullet.enemyScan r dmg es).1.length = es.length ∧
      (Bullet.enemyScan r dmg es).1.get? j = some { en with hp := en.hp - dmg } ∧
      (∀ k, k ≠ j → (Bullet.enemyScan r dmg es).1.get? k = es.get? k) := by
    induction es generalizing j with
    | nil => simp at hj
    | cons a rest ih =>
      cases j with
      | zero =>
        have ha : a = en := by simpa using hj
        subst ha
        rw [show Bullet.enemyScan r dmg (a :: rest)
            = ({ a with hp := a.hp - dmg } :: rest, true) from by
          simp [Bullet.enemyScan, hov]]
        refine ⟨rfl, by simp, rfl, ?_⟩
        intro k hk
        cases k with
        | zero => exact absurd rfl hk
        | succ k => simp
      | succ j' =>
        have ha : r.colliderect a.hitbox = false := by
          exact hfst 0 (Nat.succ_pos _) a rfl
        have hj' : rest.get? j' = some en := by simpa using hj
        have hfst' : ∀ k, k < j' → ∀ en', rest.get? k = some en' →
            r.colliderect en'.hitbox = false := by
          intro k hk en' hen
          exact hfst (k + 1) (by omega) en' (by simpa using hen)
        obtain ⟨m1, m2, m3, m4⟩ := ih j' hj' hfst'
        rw [show Bullet.enemyScan r dmg (a :: rest)
            = (a :: (Bullet.enemyScan r dmg rest).1, (Bullet.enemyScan r dmg rest).2)
            from by simp [Bullet.enemyScan, ha]]
        refine ⟨m1, by simpa using m2, by simpa using m3, ?_⟩
        intro k hk
        cases k with
        | zero => simp
        | succ k => simpa using m4 k (by omega)
  exact ⟨main.1, main.2.1, main.2.2.1, main.2.2.2, hkill⟩

/-- Witness for C9 at a bullet rect overlapping enemies 1 and 2 of a
three-enemy list (enemy 0 out of reach): only enemy 1, the first
overlapping one in iteration order, is damaged. -/
theorem enemy_scan_first_hit_only_witness :
    (Bullet.enemyScan ⟨0, 0, 7, 7⟩ 10
      [⟨⟨100, 100, 5, 5⟩, 50⟩, ⟨⟨3, 3, 5, 5⟩, 50⟩, ⟨⟨2, 2, 5, 5⟩, 50⟩]).2 = true ∧
    (Bullet.enemyScan ⟨0, 0, 7, 7⟩ 10
      [⟨⟨100, 100, 5, 5⟩, 50⟩, ⟨⟨3, 3, 5, 5⟩, 50⟩, ⟨⟨2, 2, 5, 5⟩, 50⟩]).1.get? 1
      = some ⟨⟨3, 3, 5, 5⟩, 50 - 10⟩ ∧
    (Bullet.enemyScan ⟨0, 0, 7, 7⟩ 10
      [⟨⟨100, 100, 5, 5⟩, 50⟩, ⟨⟨3, 3, 5, 5⟩, 50⟩, ⟨⟨2, 2, 5, 5⟩, 50⟩]).1.get? 0
      = some ⟨⟨100, 100, 5, 5⟩, 50⟩ ∧
    (Bullet.enemyScan ⟨0, 0, 7, 7⟩ 10
      [⟨⟨100, 100, 5, 5⟩, 50⟩, ⟨⟨3, 3, 5, 5⟩, 50⟩, ⟨⟨2, 2, 5, 5⟩, 50⟩]).1.get? 2
      = some ⟨⟨2, 2, 5, 5⟩, 50⟩ := by
  have h := enemy_scan_first_hit_only ⟨0, 0, 7, 7⟩ 10
    [⟨⟨100, 100, 5, 5⟩, 50⟩, ⟨⟨3, 3, 5, 5⟩, 50⟩, ⟨⟨2, 2, 5, 5⟩, 50⟩] 1 ⟨⟨3, 3, 5, 5⟩, 50⟩
    rfl
    (by norm_num [Rect.colliderect])
    (by
      intro k hk en' hen
      have hk0 : k = 0 := by omega
      subst hk0
      have : en' = ⟨⟨100, 100, 5, 5⟩, 50⟩ := by simpa using hen.symm
      subst this
      norm_num [Rect.colliderect])
  exact ⟨h.1, h.2.2.1, h.2.2.2.1 0 (by omega), h.2.2.2.1 2 (by omega)⟩

/-- Claim C5: for non-coincident origin and target, the direction built
by `Bullet.__init__` via `calculate_dir` is a unit vector that is a
positive multiple of the origin-to-target displacement; when origin and
target coincide, `calculate_dir` divides by a zero length and fails
(Python `ZeroDivisionError`, embedded as `none`) instead of returning a
vector. -/
theorem calculate_dir_unit_or_degenerate (x y tx ty : ℝ) :
    ((x, y) ≠ (tx, ty) →
      ∃ v : ℝ × ℝ, initialDir x y tx ty = some v ∧
        v.1 ^ 2 + v.2 ^ 2 = 1 ∧
        ∃ c : ℝ, 0 < c ∧ tx - x = c * v.1 ∧ ty - y = c * v.2) ∧
    ((x, y) = (tx, ty) → initialDir x y tx ty = none) := by
  constructor
  · intro hne
    have hco : tx - x ≠ 0 ∨ ty - y ≠ 0 := by
      by_contra hc
      push_neg at hc
      refine hne ?_
      have h1 : tx = x := by linarith [hc.1]
      have h2 : ty = y := by linarith [hc.2]
      simp [h1, h2]
    have hd : 0 < (tx - x) ^ 2 + (ty - y) ^ 2 := by
      rcases hco with h | h
      · have h2 : (tx - x) ^ 2 ≠ 0 := pow_ne_zero 2 h
        have h3 : 0 ≤ (tx - x) ^ 2 := sq_nonneg _
        have h4 : 0 < (tx - x) ^ 2 := lt_of_le_of_ne h3 (Ne.symm h2)
        nlinarith [sq_nonneg (ty - y)]
      · have h2 : (ty - y) ^ 2 ≠ 0 := pow_ne_zero 2 h
        have h3 : 0 ≤ (ty - y) ^ 2 := sq_nonneg _
        have h4 : 0 < (ty - y) ^ 2 := lt_of_le_of_ne h3 (Ne.symm h2)
        nlinarith [sq_nonneg (tx - x)]
    have hL : 0 < Real.sqrt ((tx - x) ^ 2 + (ty - y) ^ 2) := Real.sqrt_pos.mpr hd
    have hLne : Real.sqrt ((tx - x) ^ 2 + (ty - y) ^ 2) ≠ 0 := ne_of_gt hL
    have hsq : Real.sqrt ((tx - x) ^ 2 + (ty - y) ^ 2) ^ 2
        = (tx - x) ^ 2 + (ty - y) ^ 2 := Real.sq_sqrt (le_of_lt hd)
    refine ⟨(((tx - x) / Real.sqrt ((tx - x) ^ 2 + (ty - y) ^ 2)),
             ((ty - y) / Real.sqrt ((tx - x) ^ 2 + (ty - y) ^ 2))), ?_, ?_,
            Real.sqrt ((tx - x) ^ 2 + (ty - y) ^ 2), hL, ?_, ?_⟩
    · unfold initialDir calculate_dir
      rw [if_neg hLne]
    · field_simp
    · rw [mul_comm]
      exact (div_mul_cancel₀ _ hLne).symm
    · rw [mul_comm]
      exact (div_mul_cancel₀ _ hLne).symm
  · intro heq
    have h1 : x = tx := congrArg Prod.fst heq
    have h2 : y = ty := congrArg Prod.snd heq
    unfold initialDir calculate_dir
    rw [if_pos]
    simp [← h1, ← h2]

/-- Witness for C5: the spec's own scenario, origin (100,100), target
(200,100), yields the unit vector pointing at the target; the origin
aimed at itself fails with the degenerate-direction condition. -/
theorem calculate_dir_unit_or_degenerate_witness :
    (∃ v : ℝ × ℝ, initialDir 100 100 200 100 = some v ∧
        v.1 ^ 2 + v.2 ^ 2 = 1 ∧
        ∃ c : ℝ, 0 < c ∧ (200 : ℝ) - 100 = c * v.1 ∧ (100 : ℝ) - 100 = c * v.2) ∧
    initialDir 0 0 0 0 = none := by
  constructor
  · exact (calculate_dir_unit_or_degenerate 100 100 200 100).1 (by norm_num)
  · exact (calculate_dir_unit_or_degenerate 0 0 0 0).2 rfl

/-- Counterexample to claim C7: a reflected bullet in the current room
need not travel its per-kind speed constant.  An imp bullet (constant
5) whose reflection drew jitter 0.1/0.1 and speed factor 2 (all inside
the ranges of src/bullet.py lines 178-179) has direction (-0.9, 0.1)
and speed 10, so one `update_position` moves it √82 ≈ 9.06 ≠ 5. -/
theorem update_position_reflected_distance_cex :
    (Bullet.bounceStep ⟨0, false, ⟨2000, 2000, 1, 1⟩, true, 1/10, 1/10, 2, []⟩
        ⟨.imp, (100, 100), (1, 0), 5, 10, true, 0, true⟩).room = 0 ∧
    Real.sqrt
        ((((Bullet.update_position 0
              (Bullet.bounceStep ⟨0, false, ⟨2000, 2000, 1, 1⟩, true, 1/10, 1/10, 2, []⟩
                ⟨.imp, (100, 100), (1, 0), 5, 10, true, 0, true⟩)).pos.1 -
            (Bullet.bounceStep ⟨0, false, ⟨2000, 2000, 1, 1⟩, true, 1/10, 1/10, 2, []⟩
                ⟨.imp, (100, 100), (1, 0), 5, 10, true, 0, true⟩).pos.1 : ℚ) : ℝ) ^ 2 +
         (((Bullet.update_position 0
              (Bullet.bounceStep ⟨0, false, ⟨2000, 2000, 1, 1⟩, true, 1/10, 1/10, 2, []⟩
                ⟨.imp, (100, 100), (1, 0), 5, 10, true, 0, true⟩)).pos.2 -
            (Bullet.bounceStep ⟨0, false, ⟨2000, 2000, 1, 1⟩, true, 1/10, 1/10, 2, []⟩
                ⟨.imp, (100, 100), (1, 0), 5, 10, true, 0, true⟩).pos.2 : ℚ) : ℝ) ^ 2)
      ≠ ((BulletKind.imp.speedConst : ℚ) : ℝ) := by
  have hb : Bullet.bounceStep ⟨0, false, ⟨2000, 2000, 1, 1⟩, true, 1/10, 1/10, 2, []⟩
        ⟨.imp, (100, 100), (1, 0), 5, 10, true, 0, true⟩
      = ⟨.imp, (100, 100), (-(9/10), 1/10), 10, 10, false, 0, true⟩ := by
    norm_num [Bullet.bounceStep]
  rw [hb]
  have h1 : (Bullet.update_position 0
        (⟨.imp, (100, 100), (-(9/10), 1/10), 10, 10, false, 0, true⟩ : BState)).pos.1 -
      (100 : ℚ) = -9 := by
    norm_num [Bullet.update_position]
  have h2 : (Bullet.update_position 0
        (⟨.imp, (100, 100), (-(9/10), 1/10), 10, 10, false, 0, true⟩ : BState)).pos.2 -
      (100 : ℚ) = 1 := by
    norm_num [Bullet.update_position]
  refine ⟨rfl, ?_⟩
  rw [show ((⟨.imp, (100, 100), (-(9/10), 1/10), 10, 10, false, 0, true⟩ : BState)).pos.1
      = (100 : ℚ) from rfl,
      show ((⟨.imp, (100, 100), (-(9/10), 1/10), 10, 10, false, 0, true⟩ : BState)).pos.2
      = (100 : ℚ) from rfl, h1, h2]
  have hs : Real.sqrt ((((-9 : ℚ)) : ℝ) ^ 2 + (((1 : ℚ)) : ℝ) ^ 2) = Real.sqrt 82 := by
    norm_num
  rw [hs]
  intro hcon
  have h82 := Real.sq_sqrt (by norm_num : (0 : ℝ) ≤ 82)
  rw [hcon] at h82
  norm_num [BulletKind.speedConst] at h82

/-- Claim C7 as amended: `update_position` leaves a bullet in an
inactive room untouched; in the active room it moves the bullet by
exactly its *current* speed attribute provided its direction is still a
unit vector — in particular by exactly the per-kind constant as long as
the bullet has never been reflected, since (third conjunct) any run of
frames that ends with `bounce_back` still true has changed neither
speed nor direction.  After a reflection, speed and direction are
mutated and the distance can differ from the constant. -/
theorem update_position_distance :
    (∀ (cur : ℕ) (b : BState), b.room ≠ cur → Bullet.update_position cur b = b) ∧
    (∀ (cur : ℕ) (b : BState), b.room = cur →
      b.dir.1 ^ 2 + b.dir.2 ^ 2 = 1 → b.speed = b.kind.speedConst →
      Real.sqrt ((((Bullet.update_position cur b).pos.1 - b.pos.1 : ℚ) : ℝ) ^ 2 +
          (((Bullet.update_position cur b).pos.2 - b.pos.2 : ℚ) : ℝ) ^ 2)
        = ((b.kind.speedConst : ℚ) : ℝ)) ∧
    (∀ (envs : List Env) (g : GState),
      (Bullet.run envs g).bullet.bounce_back = true →
      (Bullet.run envs g).bullet.speed = g.bullet.speed ∧
      (Bullet.run envs g).bullet.dir = g.bullet.dir) := by
  refine ⟨?_, ?_, ?_⟩
  · intro cur b h
    unfold Bullet.update_position
    rw [if_neg h]
  · intro cur b hroom hunit hconst
    have hpos : Bullet.update_position cur b
        = { b with pos := (b.pos.1 + b.dir.1 * b.speed, b.pos.2 + b.dir.2 * b.speed) } := by
      unfold Bullet.update_position
      rw [if_pos hroom]
    rw [hpos]
    have hd1 : ({ b with pos := (b.pos.1 + b.dir.1 * b.speed, b.pos.2 + b.dir.2 * b.speed)}
        : BState).pos.1 - b.pos.1 = b.dir.1 * b.speed := by
      dsimp only
      ring
    have hd2 : ({ b with pos := (b.pos.1 + b.dir.1 * b.speed, b.pos.2 + b.dir.2 * b.speed)}
        : BState).pos.2 - b.pos.2 = b.dir.2 * b.speed := by
      dsimp only
      ring
    rw [hd1, hd2]
    have hu : ((b.dir.1 : ℝ)) ^ 2 + ((b.dir.2 : ℝ)) ^ 2 = 1 := by
      exact_mod_cast congrArg (fun q : ℚ => (q : ℝ)) hunit
    have hsp : (0 : ℚ) ≤ b.speed := by
      rw [hconst]
      cases b.kind <;> norm_num [BulletKind.speedConst]
    have hgoal : (((b.dir.1 * b.speed : ℚ)) : ℝ) ^ 2 + (((b.dir.2 * b.speed : ℚ)) : ℝ) ^ 2
        = ((b.speed : ℚ) : ℝ) ^ 2 := by
      push_cast
      linear_combination ((b.speed : ℝ)) ^ 2 * hu
    rw [hgoal, Real.sqrt_sq (by exact_mod_cast hsp), hconst]
  · intro envs g
    induction envs generalizing g with
    | nil => intro _; exact ⟨rfl, rfl⟩
    | cons e rest ih =>
      intro h
      have hrun : Bullet.run (e :: rest) g = Bullet.run rest (Bullet.update e g) := rfl
      rw [hrun] at h ⊢
      have h1 : (Bullet.update e g).bullet.bounce_back = true := by
        cases hx : (Bullet.update e g).bullet.bounce_back with
        | false =>
          rw [Bullet.run_bb_false rest _ hx] at h
          exact absurd h (by simp)
        | true => rfl
      obtain ⟨-, hs1, hd1⟩ := Bullet.update_bb_true e g h1
      obtain ⟨hs2, hd2⟩ := ih (Bullet.update e g) h
      exact ⟨hs2.trans hs1, hd2.trans hd1⟩

/-- Witness for C7's amended theorem: an inactive-room bullet is frozen;
the spec's own scenario (spawn (100,100), target (200,100), speed 5)
moves exactly 5; a one-frame run without a parry leaves speed and
direction of a never-reflected bullet unchanged. -/
theorem update_position_distance_witness :
    Bullet.update_position 1 ⟨.imp, (100, 100), (1, 0), 5, 10, true, 0, true⟩
      = ⟨.imp, (100, 100), (1, 0), 5, 10, true, 0, true⟩ ∧
    Real.sqrt ((((Bullet.update_position 0
          (⟨.imp, (100, 100), (1, 0), 5, 10, true, 0, true⟩ : BState)).pos.1 -
        (100 : ℚ) : ℚ) : ℝ) ^ 2 +
        (((Bullet.update_position 0
          (⟨.imp, (100, 100), (1, 0), 5, 10, true, 0, true⟩ : BState)).pos.2 -
        (100 : ℚ) : ℚ) : ℝ) ^ 2) = ((BulletKind.imp.speedConst : ℚ) : ℝ) ∧
    (Bullet.run [⟨1, false, ⟨2000, 2000, 1, 1⟩, false, 0, 0, 1, []⟩]
        ⟨⟨.imp, (100, 100), (1, 0), 5, 10, true, 0, true⟩, [], 0, 50, false⟩).bullet.speed
      = 5 ∧
    (Bullet.run [⟨1, false, ⟨2000, 2000, 1, 1⟩, false, 0, 0, 1, []⟩]
        ⟨⟨.imp, (100, 100), (1, 0), 5, 10, true, 0, true⟩, [], 0, 50, false⟩).bullet.dir
      = (1, 0) := by
  have h := update_position_distance
  refine ⟨h.1 1 _ (by norm_num), ?_, ?_, ?_⟩
  · exact h.2.1 0 ⟨.imp, (100, 100), (1, 0), 5, 10, true, 0, true⟩ rfl (by norm_num) rfl
  · exact (h.2.2 [⟨1, false, ⟨2000, 2000, 1, 1⟩, false, 0, 0, 1, []⟩]
      ⟨⟨.imp, (100, 100), (1, 0), 5, 10, true, 0, true⟩, [], 0, 50, false⟩
      (by norm_num [Bullet.run, Bullet.update, Bullet.wallPhase, Bullet.boundsPhase,
        Bullet.bouncePhase, Bullet.posPhase, Bullet.update_position, Bullet.player_collision,
        Bullet.enemyPhase, Bullet.bounceStep, Bullet.boundsKill, Bullet.wall_collision,
        BState.rect, Rect.colliderect, BulletKind.sizeConst])).1
  · exact (h.2.2 [⟨1, false, ⟨2000, 2000, 1, 1⟩, false, 0, 0, 1, []⟩]
      ⟨⟨.imp, (100, 100), (1, 0), 5, 10, true, 0, true⟩, [], 0, 50, false⟩
      (by norm_num [Bullet.run, Bullet.update, Bullet.wallPhase, Bullet.boundsPhase,
        Bullet.bouncePhase, Bullet.posPhase, Bullet.update_position, Bullet.player_collision,
        Bullet.enemyPhase, Bullet.bounceStep, Bullet.boundsKill, Bullet.wall_collision,
        BState.rect, Rect.colliderect, BulletKind.sizeConst])).2

/-- Counterexample to claim C1: an unbounced `Bounce.move` step does
not always strictly decrease speed.  For a state falling straight down
(angle π) with speed 0.5, the source's own drag 0.999 < 1 and gravity
(π, 0.002), the gravity pull raises the magnitude to 0.502 before drag,
so the step ends at 0.502·0.999 = 0.501498 > 0.5. -/
theorem bounce_move_speed_increase_cex :
    ((⟨500, 500, 1/2, Real.pi, 999/1000, 4/5, Real.pi, 1/500, 654, (16, 16)⟩ : Bounce)).drag
      < 1 ∧
    ((⟨500, 500, 1/2, Real.pi, 999/1000, 4/5, Real.pi, 1/500, 654, (16, 16)⟩ : Bounce)).speed
      < (Bounce.move
          ⟨500, 500, 1/2, Real.pi, 999/1000, 4/5, Real.pi, 1/500, 654, (16, 16)⟩).speed := by
  constructor
  · norm_num
  · show (1/2 : ℝ) < (Bounce.add_vectors Real.pi (1/2) Real.pi (1/500)).2 * (999/1000)
    unfold Bounce.add_vectors
    simp [Real.sin_pi, Real.cos_pi]
    rw [show (-2⁻¹ + -500⁻¹ : ℝ) = -(251/500) by norm_num, neg_sq,
      Real.sqrt_sq (by norm_num : (0 : ℝ) ≤ 251/500)]
    norm_num

/-- Claim C1 as amended: every boundary reflection of `Bounce.bounce`
multiplies the speed by `elasticity` (once per triggered axis), so with
0 < elasticity < 1 — guaranteed by `Bounce.__init__`'s ranges — any
crossing strictly decreases a positive speed, and a state crossing no
boundary is untouched.  The unbounced `Bounce.move` step, however, only
applies drag *after* the gravity pull: its final speed is exactly
(post-gravity magnitude)·drag, strictly below the post-gravity
magnitude when drag < 1, but not necessarily below the pre-step
speed. -/
theorem bounce_reflection_decreases_speed (s : Bounce)
    (he0 : 0 < s.elasticity) (he1 : s.elasticity < 1) :
    (0 < s.speed → Bounce.crossesBoundary s → (Bounce.bounce s).speed < s.speed) ∧
    (¬ Bounce.crossesBoundary s → Bounce.bounce s = s) ∧
    (Bounce.move s).speed = Bounce.postGravitySpeed s * s.drag ∧
    (0 < Bounce.postGravitySpeed s → 0 < s.drag → s.drag < 1 →
      (Bounce.move s).speed < Bounce.postGravitySpeed s) ∧
    (Bounce.initRanges s →
      0 < s.elasticity ∧ s.elasticity < 1 ∧ 0 < s.drag ∧ s.drag < 1 ∧ 0 < s.speed) := by
  refine ⟨?_, ?_, rfl, ?_, ?_⟩
  · intro hsp hcross
    have hee : s.speed * s.elasticity * s.elasticity < s.speed := by
      nlinarith [mul_pos hsp he0]
    have he : s.speed * s.elasticity < s.speed := by nlinarith
    unfold Bounce.bounce
    split_ifs with h1 h2
    · dsimp only
      split_ifs with h3 h4
      · exact hee
      · exact hee
      · exact he
    · dsimp only
      split_ifs with h3 h4
      · exact hee
      · exact hee
      · exact he
    · dsimp only
      split_ifs with h3 h4
      · exact he
      · exact he
      · rcases hcross with hc | hc | hc | hc
        · exact absurd hc h1
        · exact absurd hc h2
        · exact absurd hc h3
        · exact absurd hc h4
  · intro hcross
    rw [Bounce.crossesBoundary] at hcross
    push_neg at hcross
    obtain ⟨n1, n2, n3, n4⟩ := hcross
    unfold Bounce.bounce
    split_ifs with h1 h2
    · exact absurd h1 (not_lt.mpr n1)
    · exact absurd h2 (not_lt.mpr n2)
    · dsimp only
      rw [if_neg (not_lt.mpr n3), if_neg (not_lt.mpr n4)]
  · intro hpg hd0 hd1
    show Bounce.postGravitySpeed s * s.drag < Bounce.postGravitySpeed s
    exact mul_lt_of_lt_one_right hpg hd1
  · intro hr
    obtain ⟨r1, r2, r3, r4, r5, r6, r7, r8, r9⟩ := hr
    refine ⟨by linarith, by linarith, by rw [r5]; norm_num, by rw [r5]; norm_num,
      by linarith⟩

/-- Witness for C1's amended theorem: a state at y = 700 above the
y-limit 654 (elasticity 0.8, speed 0.5) loses speed on the reflection,
and a state launched straight up (angle 0, speed 0.5) has its
post-gravity magnitude 0.498 strictly reduced by the drag stage of
`Bounce.move`. -/
theorem bounce_reflection_decreases_speed_witness :
    (Bounce.bounce ⟨500, 700, 1/2, 0, 999/1000, 4/5, Real.pi, 1/500, 654, (16, 16)⟩).speed
      < ((⟨500, 700, 1/2, 0, 999/1000, 4/5, Real.pi, 1/500, 654, (16, 16)⟩ : Bounce)).speed ∧
    (Bounce.move ⟨500, 700, 1/2, 0, 999/1000, 4/5, Real.pi, 1/500, 654, (16, 16)⟩).speed
      < Bounce.postGravitySpeed
          ⟨500, 700, 1/2, 0, 999/1000, 4/5, Real.pi, 1/500, 654, (16, 16)⟩ := by
  have h := bounce_reflection_decreases_speed
    ⟨500, 700, 1/2, 0, 999/1000, 4/5, Real.pi, 1/500, 654, (16, 16)⟩
    (by norm_num) (by norm_num)
  have hpg : Bounce.postGravitySpeed
      ⟨500, 700, 1/2, 0, 999/1000, 4/5, Real.pi, 1/500, 654, (16, 16)⟩ = 249/500 := by
    show (Bounce.add_vectors 0 (1/2) Real.pi (1/500)).2 = 249/500
    unfold Bounce.add_vectors
    simp [Real.sin_pi, Real.cos_pi, Real.sin_zero, Real.cos_zero]
    rw [show (2⁻¹ + -500⁻¹ : ℝ) = 249/500 by norm_num,
      Real.sqrt_sq (by norm_num : (0 : ℝ) ≤ 249/500)]
  refine ⟨h.1 (by norm_num) (Or.inl (by norm_num)), ?_⟩
  exact h.2.2.2.1 (by rw [hpg]; norm_num) (by norm_num) (by norm_num)

end SK
